import Mathlib

/-!
Shallow embedding of the IronLog workout session state machine and derived
metrics engine from src/app.js. JavaScript numbers are modelled as
rationals for weights and as integers for millisecond timestamps, seconds
counters and rep counts; the String(x) / parseFloat round trip on numeric
fields is dropped because it is the identity on numeric values. DOM reads
and writes are display only and omitted; generated identifiers (uid) and
user identity fields are omitted from records. Truthiness tests on numeric
fields follow JavaScript: 0 and a missing value are falsy. Date.now() is
passed in explicitly as a parameter named now.
-/

namespace IronLog

/-- Constant SET_TYPES.EFFECTIVE from src/app.js. -/
def SET_TYPES_EFFECTIVE : String := "effective"

/-- Constant SET_TYPES.WARMUP from src/app.js. -/
def SET_TYPES_WARMUP : String := "warmup"

/-- Constant SET_TYPES.APPROACH from src/app.js. -/
def SET_TYPES_APPROACH : String := "approach"

/-- Constant EQUIPMENT_TYPES.BARBELL from src/app.js. -/
def EQUIPMENT_BARBELL : String := "barbell"

/-- Constant EQUIPMENT_TYPES.MACHINE from src/app.js. -/
def EQUIPMENT_MACHINE : String := "machine"

/-- Constant EQUIPMENT_TYPES.DUMBBELL from src/app.js. -/
def EQUIPMENT_DUMBBELL : String := "dumbbell"

/-- JavaScript truthiness of an optional number: undefined, null and 0 are
falsy, every other number is truthy. -/
def jsTruthyInt : Option Int → Bool
  | none => false
  | some v => v != 0

/-- Expression x || y on an optional number x, as used on startTime. -/
def jsOrInt (x : Option Int) (y : Int) : Int :=
  match x with
  | none => y
  | some v => if v = 0 then y else v

/-- Math.floor(x / 1000), flooring division on integers. -/
def jsFloorDiv1000 (x : Int) : Int := Int.fdiv x 1000

/-- One recorded set, as built by SessionV3.finishSet and by the plan
branch of handleFinishSetV2. Legacy records may lack realWeight or
setType, hence the Option fields. -/
structure SetRec where
  weight : Rat
  realWeight : Option Rat
  reps : Int
  duration : Int
  setType : Option String
  equipmentType : Option String
deriving Repr, DecidableEq

/-- Expression parseFloat(s.realWeight || s.weight) || 0: the stored
realWeight string is non empty whenever present, so the fallback fires
exactly when realWeight is absent. -/
def effWeight (s : SetRec) : Rat := s.realWeight.getD s.weight

/-- An exercise, both in progress (currentExercise) and completed; the
generated id field is omitted. -/
structure ExerciseRec where
  name : String
  muscle : String
  sets : List SetRec
  equipmentType : Option String
  barbellType : Option String
  barbellWeight : Rat
deriving Repr, DecidableEq

/-- Predicate !s.setType || s.setType === SET_TYPES.EFFECTIVE used by
calcEffectiveVolume and updatePRsV2. -/
def isEffectiveSet (s : SetRec) : Bool :=
  s.setType.isNone || s.setType == some SET_TYPES_EFFECTIVE

/-- Function calcVolumeV2 from src/app.js: total volume over all sets. -/
def calcVolumeV2 (sets : List SetRec) : Rat :=
  sets.foldl (fun acc s => acc + effWeight s * (s.reps : Rat)) 0

/-- Function calcEffectiveVolume from src/app.js: volume restricted to
sets whose setType is absent or effective. -/
def calcEffectiveVolume (sets : List SetRec) : Rat :=
  sets.foldl (fun acc s =>
    match s.setType with
    | some t => if t ≠ SET_TYPES_EFFECTIVE then acc else acc + effWeight s * (s.reps : Rat)
    | none => acc + effWeight s * (s.reps : Rat)) 0

/-- The PR table: a JavaScript object mapping normalized exercise names to
weights, modelled as an association list with unique keys. -/
def PRTable := List (String × Rat)
deriving DecidableEq, Repr

/-- Lookup prs[key] || 0 on the PR table (a missing entry reads as 0, and
the || turns a stored 0 into 0, which is the same value). -/
def prGet : PRTable → String → Rat
  | [], _ => 0
  | (k, v) :: rest, key => if k = key then v else prGet rest key

/-- Assignment prs[key] = v on the PR table. -/
def prSet : PRTable → String → Rat → PRTable
  | [], key, v => [(key, v)]
  | (k, w) :: rest, key, v =>
      if k = key then (key, v) :: rest else (k, w) :: prSet rest key v

/-- Key normalization exerciseName.toLowerCase().trim(), computed on the
character list representation of the string: lowercase every character,
then drop whitespace from both ends. ASCII lowercasing suffices for the
exercise names of this application. -/
def prKey (name : String) : String :=
  String.mk ((((name.data.map Char.toLower).dropWhile Char.isWhitespace).reverse.dropWhile
    Char.isWhitespace).reverse)

/-- Function detectPRV2 from src/app.js. The setType argument defaults to
SET_TYPES.EFFECTIVE when omitted; none models an omitted argument. -/
def detectPRV2 (exerciseName : String) (weight : Rat) (prs : PRTable)
    (setTypeArg : Option String) : Bool :=
  let setType := setTypeArg.getD SET_TYPES_EFFECTIVE
  if setType ≠ SET_TYPES_EFFECTIVE then false
  else decide (prGet prs (prKey exerciseName) < weight)

/-- Math.max over a list of numbers; none models the minus infinity value
returned for an empty argument list. -/
def listMax? : List Rat → Option Rat
  | [] => none
  | x :: xs =>
      match listMax? xs with
      | none => some x
      | some m => some (max x m)

/-- One newPRs entry { exercise, weight } pushed by updatePRsV2. -/
structure PREvent where
  exercise : String
  weight : Rat
deriving Repr, DecidableEq

/-- Body of the forEach in updatePRsV2 for one exercise: take the maximum
weight over effective sets and update the table plus the event list when
it is positive and strictly exceeds the stored value. -/
def updatePRStep (acc : PRTable × List PREvent) (ex : ExerciseRec) :
    PRTable × List PREvent :=
  match listMax? ((ex.sets.filter isEffectiveSet).map effWeight) with
  | none => acc
  | some maxWeight =>
      if 0 < maxWeight ∧ prGet acc.1 (prKey ex.name) < maxWeight then
        (prSet acc.1 (prKey ex.name) maxWeight, acc.2 ++ [⟨ex.name, maxWeight⟩])
      else acc

/-- Function updatePRsV2 from src/app.js, with the DataStore read and save
made explicit: it maps the current PR table to the saved table together
with the list of emitted PR events. -/
def updatePRsV2 (exercises : List ExerciseRec) (prs : PRTable) :
    PRTable × List PREvent :=
  exercises.foldl updatePRStep (prs, [])

/-- Day of week of a local calendar day index, 0 = Sunday .. 6 = Saturday,
matching Date.prototype.getDay; day 0 is chosen to be a Thursday as on the
Unix epoch. -/
def jsGetDay (d : Int) : Int := (d + 4) % 7

/-- Workout as read by calcStreak, which consults only the date field; the
date is modelled as the calendar day index of the ISO date string, so the
startsWith test on the YYYY-MM-DD part is equality of indices, and a
missing date (falsy w.date) is none. -/
structure StreakWorkout where
  date : Option Int
deriving Repr, DecidableEq

/-- One entry of the calcStreak result. -/
structure StreakDay where
  label : String
  done : Bool
deriving Repr, DecidableEq

/-- Labels array of calcStreak. -/
def dayLabels : List String := ["L", "M", "X", "J", "V", "S", "D"]

/-- Monday of the week of a day: today minus (getDay(today)+6) % 7, the
diff computed inside calcStreak. -/
def mondayOf (today : Int) : Int := today - (jsGetDay today + 6) % 7

/-- Function calcStreak from src/app.js over day indices: one entry per
label, day i of the streak being Monday plus i. -/
def calcStreak (workouts : List StreakWorkout) (today : Int) : List StreakDay :=
  dayLabels.enum.map fun p =>
    let diff := (jsGetDay today + 6) % 7
    let day := today - diff + (p.1 : Int)
    { label := p.2, done := workouts.any fun w => w.date == some day }

/-- Function calcLevel from src/app.js. -/
def calcLevel (workoutCount : Int) : String × Int :=
  if workoutCount ≥ 100 then ("ELITE", 5)
  else if workoutCount ≥ 50 then ("ADVANCED", 4)
  else if workoutCount ≥ 20 then ("INTERMEDIATE", 3)
  else if workoutCount ≥ 8 then ("NOVICE", 2)
  else ("BEGINNER", 1)

/-- Mutable fields of the SessionV3 singleton. Interval handles are
modelled as booleans recording whether the interval is scheduled;
timestamps are milliseconds. -/
structure SessionState where
  active : Bool
  mode : String
  workoutName : String
  workoutType : String
  restSeconds : Int
  startTime : Option Int
  workoutTimerInterval : Bool
  totalWorkoutSeconds : Int
  isPaused : Bool
  pauseStartTime : Option Int
  totalPausedTime : Int
  companionMode : Bool
  companionName : String
  isCompanionTurn : Bool
  companionWaitTime : Int
  companionWaitStart : Option Int
  completedExercises : List ExerciseRec
  totalSeriesTime : Int
  totalRestTime : Int
  totalSkippedRestTime : Int
  currentExercise : Option ExerciseRec
  completedSets : List SetRec
  equipmentType : Option String
  barbellType : Option String
  barbellWeight : Rat
  setTimerInterval : Bool
  setStartTime : Option Int
  setPausedTime : Int
  setIsPaused : Bool
  setPauseStart : Option Int
  restTimerInterval : Bool
  restRemaining : Int
  restTotal : Int
  restIsPaused : Bool
  restPausedAt : Option Int
  nextWeight : Rat
  lastReminder : Int
deriving Repr, DecidableEq

/-- State produced by SessionV3.reset, which is also the initial field
assignment of the SessionV3 literal. -/
def resetState : SessionState where
  active := false
  mode := "now"
  workoutName := ""
  workoutType := ""
  restSeconds := 90
  startTime := none
  workoutTimerInterval := false
  totalWorkoutSeconds := 0
  isPaused := false
  pauseStartTime := none
  totalPausedTime := 0
  companionMode := false
  companionName := ""
  isCompanionTurn := false
  companionWaitTime := 0
  companionWaitStart := none
  completedExercises := []
  totalSeriesTime := 0
  totalRestTime := 0
  totalSkippedRestTime := 0
  currentExercise := none
  completedSets := []
  equipmentType := none
  barbellType := none
  barbellWeight := 0
  setTimerInterval := false
  setStartTime := none
  setPausedTime := 0
  setIsPaused := false
  setPauseStart := none
  restTimerInterval := false
  restRemaining := 0
  restTotal := 0
  restIsPaused := false
  restPausedAt := none
  nextWeight := 0
  lastReminder := 0

/-- Method SessionV3.startWorkoutTimer: returns immediately in plan mode
or when the interval is already scheduled; otherwise keeps a truthy
startTime or samples Date.now(). The interval callback only updates the
DOM, so ticking has no state effect. -/
def startWorkoutTimer (now : Int) (s : SessionState) : SessionState :=
  if s.mode = "plan" then s
  else if s.workoutTimerInterval then s
  else { s with startTime := some (jsOrInt s.startTime now),
                workoutTimerInterval := true }

/-- Method SessionV3.pauseWorkoutTimer. -/
def pauseWorkoutTimer (now : Int) (s : SessionState) : SessionState :=
  if s.isPaused then s
  else { s with isPaused := true, pauseStartTime := some now }

/-- Method SessionV3.resumeWorkoutTimer. -/
def resumeWorkoutTimer (now : Int) (s : SessionState) : SessionState :=
  if s.isPaused ∧ jsTruthyInt s.pauseStartTime then
    { s with totalPausedTime := s.totalPausedTime + (now - s.pauseStartTime.getD 0),
             isPaused := false, pauseStartTime := none }
  else s

/-- Method SessionV3.stopWorkoutTimer: clears the interval when present,
and whenever startTime is truthy re-snapshots totalWorkoutSeconds from
the current clock (startTime itself is not cleared). -/
def stopWorkoutTimer (now : Int) (s : SessionState) : SessionState :=
  let s1 := if s.workoutTimerInterval then { s with workoutTimerInterval := false } else s
  if jsTruthyInt s1.startTime then
    { s1 with totalWorkoutSeconds :=
        jsFloorDiv1000 (now - s1.startTime.getD 0 - s1.totalPausedTime) }
  else s1

/-- Method SessionV3.startSetTimer: in plan mode only the DOM is touched;
otherwise the set clock baseline is sampled and the interval scheduled.
The interval callback updates the DOM and the lastReminder field only. -/
def startSetTimer (now : Int) (s : SessionState) : SessionState :=
  if s.mode = "plan" then s
  else { s with setStartTime := some now, setPausedTime := 0,
                setIsPaused := false, setTimerInterval := true }

/-- Method SessionV3.pauseSetTimer. -/
def pauseSetTimer (now : Int) (s : SessionState) : SessionState :=
  if s.setIsPaused then s
  else { s with setIsPaused := true, setPauseStart := some now }

/-- Method SessionV3.resumeSetTimer. -/
def resumeSetTimer (now : Int) (s : SessionState) : SessionState :=
  if s.setIsPaused ∧ jsTruthyInt s.setPauseStart then
    { s with setPausedTime := s.setPausedTime + (now - s.setPauseStart.getD 0),
             setIsPaused := false, setPauseStart := none }
  else s

/-- Method SessionV3.stopSetTimer: clears the interval, computes the set
duration when setStartTime is truthy, resets the set clock fields and
returns the duration. -/
def stopSetTimer (now : Int) (s : SessionState) : Int × SessionState :=
  let s1 := if s.setTimerInterval then { s with setTimerInterval := false } else s
  let duration := if jsTruthyInt s1.setStartTime then
      jsFloorDiv1000 (now - s1.setStartTime.getD 0 - s1.setPausedTime)
    else 0
  (duration, { s1 with setStartTime := none, setPausedTime := 0, setIsPaused := false })

/-- Method SessionV3.startRestTimer: loads the configured rest duration
into the countdown and schedules the interval. -/
def startRestTimer (s : SessionState) : SessionState :=
  { s with restRemaining := s.restSeconds, restTotal := s.restSeconds,
           restIsPaused := false, restPausedAt := none, restTimerInterval := true }

/-- Method SessionV3.pauseRestTimer. -/
def pauseRestTimer (now : Int) (s : SessionState) : SessionState :=
  if s.restIsPaused then s
  else { s with restIsPaused := true, restPausedAt := some now }

/-- Method SessionV3.resumeRestTimer. -/
def resumeRestTimer (s : SessionState) : SessionState :=
  if s.restIsPaused then { s with restIsPaused := false, restPausedAt := none }
  else s

/-- Method SessionV3.stopRestTimer. -/
def stopRestTimer (s : SessionState) : SessionState :=
  let s1 := if s.restTimerInterval then { s with restTimerInterval := false } else s
  { s1 with restIsPaused := false, restPausedAt := none }

/-- One tick of the startRestTimer interval callback. The callback exists
only while the interval is scheduled and skips its body while paused;
otherwise it decrements the countdown, increments totalRestTime, and on
reaching zero stops the rest timer and runs the onDone callback, which in
handleFinishSetV2 is beginNextSetV2, whose state effect is startSetTimer. -/
def restTick (now : Int) (s : SessionState) : SessionState :=
  if ¬ s.restTimerInterval then s
  else if s.restIsPaused then s
  else
    let s1 := { s with restRemaining := s.restRemaining - 1,
                       totalRestTime := s.totalRestTime + 1 }
    if s1.restRemaining ≤ 0 then startSetTimer now (stopRestTimer s1)
    else s1

/-- Iterated rest ticks. -/
def restTicks (now : Int) : Nat → SessionState → SessionState
  | 0, s => s
  | n + 1, s => restTicks now n (restTick now s)

/-- Method SessionV3.stopAllTimers. -/
def stopAllTimers (now : Int) (s : SessionState) : SessionState :=
  stopRestTimer (stopSetTimer now (stopWorkoutTimer now s)).2

/-- Method SessionV3.beginExercise. -/
def beginExercise (name muscle : String) (equipmentType : Option String)
    (barbellType : Option String) (barbellWeight : Rat)
    (s : SessionState) : SessionState :=
  let eq := equipmentType.getD EQUIPMENT_MACHINE
  { s with
    currentExercise := some { name := name, muscle := muscle, sets := [],
                              equipmentType := some eq, barbellType := barbellType,
                              barbellWeight := barbellWeight },
    completedSets := [],
    equipmentType := some eq,
    barbellType := barbellType,
    barbellWeight := barbellWeight,
    nextWeight := 0,
    active := if s.mode = "plan" then false else s.active }

/-- Method SessionV3.finishSet: stops the set timer, folds its duration
into totalSeriesTime, starts the workout timer, computes the real weight
by adding the bar weight for barbell equipment, appends the set and
returns it. -/
def finishSet (now : Int) (weight : Rat) (reps : Int) (setType : String)
    (s : SessionState) : SessionState × SetRec :=
  let p := stopSetTimer now s
  let duration := p.1
  let s2 := { p.2 with totalSeriesTime := p.2.totalSeriesTime + duration }
  let s3 := startWorkoutTimer now s2
  let realWeight :=
    if s3.equipmentType = some EQUIPMENT_BARBELL ∧ 0 < s3.barbellWeight then
      weight + s3.barbellWeight
    else weight
  let set : SetRec :=
    { weight := weight, realWeight := some realWeight, reps := reps,
      duration := duration, setType := some setType,
      equipmentType := s3.equipmentType }
  ({ s3 with completedSets := s3.completedSets ++ [set], nextWeight := weight }, set)

/-- Method SessionV3.closeExercise: freezes completedSets into the open
exercise, appends it to completedExercises and returns it; without an
open exercise it returns undefined and changes nothing. -/
def closeExercise (s : SessionState) : SessionState × Option ExerciseRec :=
  match s.currentExercise with
  | none => (s, none)
  | some cur =>
      let ex : ExerciseRec :=
        { cur with sets := s.completedSets,
                   equipmentType := some (s.equipmentType.getD EQUIPMENT_MACHINE),
                   barbellType := s.barbellType,
                   barbellWeight := s.barbellWeight }
      ({ s with completedExercises := s.completedExercises ++ [ex],
                currentExercise := none, completedSets := [] }, some ex)

/-- Totals record returned by SessionV3.getTotals. -/
structure Totals where
  name : String
  type : String
  duration : Int
  exercises : List ExerciseRec
  totalVolume : Rat
  totalSets : Nat
  exerciseCount : Nat
  seriesTime : Int
  restTime : Int
  skippedRestTime : Int
  companionMode : Bool
  companionName : String
  companionWaitTime : Int
deriving Repr, DecidableEq

/-- Method SessionV3.getTotals: stops every timer, then aggregates volume
with real weights and set counts over the completed exercises. -/
def getTotals (now : Int) (s : SessionState) : SessionState × Totals :=
  let s1 := stopAllTimers now s
  let allExercises := s1.completedExercises
  let totalVolume := allExercises.foldl (fun t ex =>
    t + ex.sets.foldl (fun acc st => acc + effWeight st * (st.reps : Rat)) 0) 0
  let totalSets := allExercises.foldl (fun t ex => t + ex.sets.length) 0
  (s1,
   { name := if s1.workoutName = "" then "Entrenamiento" else s1.workoutName,
     type := s1.workoutType,
     duration := s1.totalWorkoutSeconds,
     exercises := allExercises,
     totalVolume := totalVolume,
     totalSets := totalSets,
     exerciseCount := allExercises.length,
     seriesTime := s1.totalSeriesTime,
     restTime := s1.totalRestTime,
     skippedRestTime := s1.totalSkippedRestTime,
     companionMode := s1.companionMode,
     companionName := s1.companionName,
     companionWaitTime := s1.companionWaitTime })

/-- Exercise blueprint stored inside a template, as built by
updatePlanTemplate and saveAsTemplate. -/
structure TemplateExercise where
  name : String
  muscle : String
  equipmentType : Option String
  barbellType : Option String
  barbellWeight : Rat
  estimatedSets : Nat
  estimatedWeight : Rat
deriving Repr, DecidableEq

/-- Persisted template; the generated id and the createdAt stamp are
omitted. -/
structure TemplateRec where
  name : String
  type : String
  exercises : List TemplateExercise
  restSeconds : Int
  isPlanTemplate : Bool
deriving Repr, DecidableEq

/-- Persisted workout record built by finishWorkout; the generated id is
omitted and date is the finishing timestamp. -/
structure WorkoutFull where
  name : String
  type : String
  date : Int
  duration : Int
  exercises : List ExerciseRec
  totalVolume : Rat
  totalSets : Nat
  exerciseCount : Nat
  seriesTime : Int
  restTime : Int
  skippedRestTime : Int
  prs : List PREvent
deriving Repr, DecidableEq

/-- Feed post built by finishWorkout; generated ids, user identity fields
and the createdAt stamp are omitted. -/
structure PostRec where
  sessionName : String
  type : String
  totalVolume : Rat
  totalSets : Nat
  duration : Int
  exerciseCount : Nat
  exercises : List ExerciseRec
  prs : List PREvent
  likes : Nat
  likedBy : List String
  comments : List String
deriving Repr, DecidableEq

/-- Persisted collections behind the DataStore localStorage wrapper.
Workouts and posts are most recent first because addWorkout and addPost
unshift. -/
structure Store where
  prs : PRTable
  workouts : List WorkoutFull
  posts : List PostRec
  templates : List TemplateRec
deriving Repr, DecidableEq

/-- The whole mutable state an event handler can touch: the session
singleton plus the persisted store. -/
structure World where
  session : SessionState
  store : Store
deriving Repr, DecidableEq

/-- Projection of a completed exercise to a template blueprint, the map
body inside updatePlanTemplate. -/
def toTemplateExercise (ex : ExerciseRec) : TemplateExercise :=
  { name := ex.name, muscle := ex.muscle,
    equipmentType := some (ex.equipmentType.getD EQUIPMENT_MACHINE),
    barbellType := ex.barbellType,
    barbellWeight := ex.barbellWeight,
    estimatedSets := ex.sets.length,
    estimatedWeight := match ex.sets with | [] => 0 | s0 :: _ => s0.weight }

/-- Replacement of the exercises of the first template matching the given
name with isPlanTemplate set; find returns the first match and the
mutation touches only that object. -/
def updateFirstTemplate (name : String) (newExs : List TemplateExercise) :
    List TemplateRec → List TemplateRec
  | [] => []
  | t :: ts =>
      if t.name = name ∧ t.isPlanTemplate then { t with exercises := newExs } :: ts
      else t :: updateFirstTemplate name newExs ts

/-- Function updatePlanTemplate from src/app.js: rewrites the exercises of
the plan template whose name matches the session workout name, when one
exists. -/
def updatePlanTemplate (w : World) : World :=
  let newExs := w.session.completedExercises.map toTemplateExercise
  { w with store := { w.store with
      templates := updateFirstTemplate w.session.workoutName newExs w.store.templates } }

/-- State effect of beginNextSetV2, which besides DOM writes only calls
startSetTimer. -/
def beginNextSetV2 (now : Int) (s : SessionState) : SessionState :=
  startSetTimer now s

/-- Handler handleSkipRestV2: adds the elapsed part of the countdown to
totalRestTime and the remaining part to totalSkippedRestTime, stops the
rest timer and begins the next set. -/
def handleSkipRestV2 (now : Int) (s : SessionState) : SessionState :=
  let elapsed := s.restTotal - s.restRemaining
  let skipped := s.restRemaining
  let s1 := { s with totalRestTime := s.totalRestTime + elapsed,
                     totalSkippedRestTime := s.totalSkippedRestTime + skipped }
  beginNextSetV2 now (stopRestTimer s1)

/-- Handler handleFinishExercise: rejects with a toast when no set is
completed; otherwise stops the set and rest timers, closes the exercise,
and in plan mode also updates the plan template. The returned string list
collects the toast messages shown. -/
def handleFinishExercise (now : Int) (w : World) : World × List String :=
  if w.session.completedSets.length = 0 then
    (w, ["Completa al menos una serie antes de finalizar"])
  else
    let s1 := (stopSetTimer now w.session).2
    let s2 := stopRestTimer s1
    let s3 := (closeExercise s2).1
    let w1 := { w with session := s3 }
    let w2 := if s3.mode = "plan" then updatePlanTemplate w1 else w1
    (w2, ["completado"])

/-- Handler handleFinishSetV2 with the DOM inputs passed as parameters:
weight and reps are the parsed input values, setType the active type
button, and confirmAnother the answer to the confirm dialog of the plan
branch. Rejects with a toast when weight and reps are both zero; in plan
mode records a zero duration set and either begins the next set or
finishes the exercise; otherwise records the set through finishSet and
starts the rest timer. -/
def handleFinishSetV2 (now : Int) (weight : Rat) (reps : Int) (setType : String)
    (confirmAnother : Bool) (w : World) : World × List String :=
  if weight = 0 ∧ reps = 0 then
    (w, ["Registra al menos peso o repeticiones"])
  else if w.session.mode = "plan" then
    let s := w.session
    let realWeight :=
      if s.equipmentType = some EQUIPMENT_BARBELL ∧ 0 < s.barbellWeight then
        weight + s.barbellWeight
      else weight
    let set : SetRec :=
      { weight := weight, realWeight := some realWeight, reps := reps,
        duration := 0, setType := some setType, equipmentType := s.equipmentType }
    let s1 := { s with completedSets := s.completedSets ++ [set], nextWeight := weight }
    if confirmAnother then ({ w with session := beginNextSetV2 now s1 }, [])
    else handleFinishExercise now { w with session := s1 }
  else
    let s1 := (finishSet now weight reps setType w.session).1
    ({ w with session := startRestTimer s1 }, [])

/-- Auto-close step at the top of finishWorkout: an open exercise with at
least one completed set is closed first. -/
def autoCloseOpenExercise (s : SessionState) : SessionState :=
  if s.currentExercise.isSome ∧ 0 < s.completedSets.length then (closeExercise s).1
  else s

/-- Function finishWorkout from src/app.js: auto-closes a dangling
exercise, rejects with a toast when no exercise was completed, saves the
plan template in plan mode, and otherwise computes totals, updates the PR
table, and prepends the workout record and the feed post to the store. -/
def finishWorkout (now : Int) (w : World) : World × List String :=
  let s := autoCloseOpenExercise w.session
  if s.completedExercises.length = 0 then
    ({ w with session := s }, ["Completa al menos un ejercicio antes de finalizar"])
  else if s.mode = "plan" then
    (updatePlanTemplate { w with session := s }, ["Plantilla guardada correctamente"])
  else
    let p := getTotals now s
    let s1 := p.1
    let totals := p.2
    let q := updatePRsV2 totals.exercises w.store.prs
    let workout : WorkoutFull :=
      { name := totals.name, type := totals.type, date := now,
        duration := totals.duration, exercises := totals.exercises,
        totalVolume := totals.totalVolume, totalSets := totals.totalSets,
        exerciseCount := totals.exerciseCount, seriesTime := totals.seriesTime,
        restTime := totals.restTime, skippedRestTime := totals.skippedRestTime,
        prs := q.2 }
    let post : PostRec :=
      { sessionName := totals.name, type := totals.type,
        totalVolume := totals.totalVolume, totalSets := totals.totalSets,
        duration := totals.duration, exerciseCount := totals.exerciseCount,
        exercises := totals.exercises, prs := q.2,
        likes := 0, likedBy := [], comments := [] }
    ({ session := s1,
       store := { w.store with
                    prs := q.1,
                    workouts := workout :: w.store.workouts,
                    posts := post :: w.store.posts } }, [])

/-- Maximum effective set weight of an exercise, the value computed inside
the forEach of updatePRsV2. -/
def maxEff (ex : ExerciseRec) : Option Rat :=
  listMax? ((ex.sets.filter isEffectiveSet).map effWeight)

/-- Replacement of an absent setType by the effective label, used to state
that an absent setType is treated as effective. -/
def normSet (s : SetRec) : SetRec :=
  match s.setType with
  | none => { s with setType := some SET_TYPES_EFFECTIVE }
  | some _ => s

/-- Pointwise normSet over the sets of an exercise. -/
def normEx (ex : ExerciseRec) : ExerciseRec :=
  { ex with sets := ex.sets.map normSet }

/-- Predicate stating that every recorded set duration in the session is
zero, over both the open set list and the completed exercises. -/
def allDurationsZero (s : SessionState) : Prop :=
  (∀ st ∈ s.completedSets, st.duration = 0) ∧
  (∀ ex ∈ s.completedExercises, ∀ st ∈ ex.sets, st.duration = 0)

/-- Store with empty collections, the state of a fresh localStorage. -/
def emptyStore : Store where
  prs := []
  workouts := []
  posts := []
  templates := []

/-- Exercise with one effective set at the given weight, used to feed the
PR weight sequence. -/
def c2Ex (w : Rat) : ExerciseRec where
  name := "Bench"
  muscle := "Pecho"
  sets := [{ weight := w, realWeight := some w, reps := 5, duration := 0,
             setType := some SET_TYPES_EFFECTIVE, equipmentType := some EQUIPMENT_MACHINE }]
  equipmentType := some EQUIPMENT_MACHINE
  barbellType := none
  barbellWeight := 0

/-- First call of the PR weight sequence 80, 75, 90, 85. -/
def c2Run1 : PRTable × List PREvent := updatePRsV2 [c2Ex 80] []

/-- Second call of the PR weight sequence. -/
def c2Run2 : PRTable × List PREvent := updatePRsV2 [c2Ex 75] c2Run1.1

/-- Third call of the PR weight sequence. -/
def c2Run3 : PRTable × List PREvent := updatePRsV2 [c2Ex 90] c2Run2.1

/-- Fourth call of the PR weight sequence. -/
def c2Run4 : PRTable × List PREvent := updatePRsV2 [c2Ex 85] c2Run3.1

/-- Session of the end to end scenario right after beginning the bench
press exercise with a 20 kg barbell in a fresh live session. -/
def c4AfterBegin : SessionState :=
  beginExercise "Bench Press" "Pecho" (some EQUIPMENT_BARBELL)
    (some "Barra Olimpica") 20 resetState

/-- Scenario state with the set timer started at millisecond 1000. -/
def c4AfterStart : SessionState := startSetTimer 1000 c4AfterBegin

/-- Scenario result of finishSet nominal 80, 5 reps, effective, five
seconds later. -/
def c4Finish : SessionState × SetRec := finishSet 6000 80 5 SET_TYPES_EFFECTIVE c4AfterStart

/-- Scenario state after closing the exercise. -/
def c4AfterClose : SessionState := (closeExercise c4Finish.1).1

/-- Scenario world before finishing the workout. -/
def c4World : World := { session := c4AfterClose, store := emptyStore }

/-- Session stopped on a running workout timer started at millisecond
1000, used to compare one stop against two stops. -/
def c5State : SessionState :=
  { resetState with startTime := some 1000, workoutTimerInterval := true }

/-- Fresh world in plan mode over an empty store. -/
def c7World : World :=
  { session := { resetState with mode := "plan" }, store := emptyStore }

/-- Closed form of the state part of stopSetTimer. -/
theorem stopSetTimer_snd (now : Int) (s : SessionState) :
    (stopSetTimer now s).2 =
      { s with setTimerInterval := false, setStartTime := none,
               setPausedTime := 0, setIsPaused := false } := by
  unfold stopSetTimer
  by_cases h : s.setTimerInterval <;> cases s <;> simp_all

/-- Closed form of stopRestTimer. -/
theorem stopRestTimer_eq (s : SessionState) :
    stopRestTimer s =
      { s with restTimerInterval := false, restIsPaused := false,
               restPausedAt := none } := by
  unfold stopRestTimer
  by_cases h : s.restTimerInterval <;> cases s <;> simp_all

/-- Closed form of stopWorkoutTimer. -/
theorem stopWorkoutTimer_eq (now : Int) (s : SessionState) :
    stopWorkoutTimer now s =
      if jsTruthyInt s.startTime then
        { s with workoutTimerInterval := false,
                 totalWorkoutSeconds :=
                   jsFloorDiv1000 (now - s.startTime.getD 0 - s.totalPausedTime) }
      else { s with workoutTimerInterval := false } := by
  unfold stopWorkoutTimer
  by_cases h : s.workoutTimerInterval <;> by_cases h2 : jsTruthyInt s.startTime <;>
    cases s <;> simp_all

set_option maxRecDepth 8000 in
/-- C1: the rest interval does not conserve the configured duration under
an early skip. With the configured 90 second rest, 30 un-paused ticks
accrue 30 seconds into totalRestTime, and handleSkipRestV2 then adds the
elapsed 30 seconds a second time together with the remaining 60 skipped
seconds, so the interval contributes 60 + 60 = 120 seconds in total
instead of the claimed 90; a rest that runs to zero contributes exactly
90 and 0. -/
theorem C1_rest_skip_double_counts :
    resetState.restSeconds = 90 ∧
    (handleSkipRestV2 0 (restTicks 0 30 (startRestTimer resetState))).totalRestTime = 60 ∧
    (handleSkipRestV2 0 (restTicks 0 30 (startRestTimer resetState))).totalSkippedRestTime = 60 ∧
    (restTicks 0 90 (startRestTimer resetState)).totalRestTime = 90 ∧
    (restTicks 0 90 (startRestTimer resetState)).totalSkippedRestTime = 0 := by
  decide

/-- C3: handleFinishSetV2 with weight 0 and reps 0 leaves the whole world,
session and store alike, unchanged for every set type and every confirm
answer, and emits exactly the rejection toast. -/
theorem C3_finish_set_zero_is_nop (now : Int) (setType : String)
    (confirmAnother : Bool) (w : World) :
    handleFinishSetV2 now 0 0 setType confirmAnother w =
      (w, ["Registra al menos peso o repeticiones"]) := by
  simp [handleFinishSetV2]

/-- C9: pausing an already paused workout or set timer and resuming a
timer that is not paused leave the state unchanged, and a pause interval
from t1 to t2 is folded into the paused time accumulator exactly once as
t2 minus t1. -/
theorem C9_pause_resume_guards :
    (∀ now s, s.isPaused = true → pauseWorkoutTimer now s = s) ∧
    (∀ now s, s.isPaused = false → resumeWorkoutTimer now s = s) ∧
    (∀ now s, s.setIsPaused = true → pauseSetTimer now s = s) ∧
    (∀ now s, s.setIsPaused = false → resumeSetTimer now s = s) ∧
    (∀ t1 t2 s, s.isPaused = false → t1 ≠ 0 →
      (resumeWorkoutTimer t2 (pauseWorkoutTimer t1 s)).totalPausedTime
        = s.totalPausedTime + (t2 - t1)) ∧
    (∀ t1 t2 s, s.setIsPaused = false → t1 ≠ 0 →
      (resumeSetTimer t2 (pauseSetTimer t1 s)).setPausedTime
        = s.setPausedTime + (t2 - t1)) := by
  refine ⟨?_, ?_, ?_, ?_, ?_, ?_⟩
  · intro now s h; simp [pauseWorkoutTimer, h]
  · intro now s h; simp [resumeWorkoutTimer, h]
  · intro now s h; simp [pauseSetTimer, h]
  · intro now s h; simp [resumeSetTimer, h]
  · intro t1 t2 s h ht
    simp [pauseWorkoutTimer, resumeWorkoutTimer, jsTruthyInt, h, ht]
  · intro t1 t2 s h ht
    simp [pauseSetTimer, resumeSetTimer, jsTruthyInt, h, ht]

/-- C9 witness: a concrete no-op pause on a paused state and a concrete
2000 millisecond pause window accrued exactly once from the fresh state. -/
theorem C9_pause_resume_guards_witness :
    pauseWorkoutTimer 5 { resetState with isPaused := true }
        = { resetState with isPaused := true } ∧
    (resumeWorkoutTimer 3000 (pauseWorkoutTimer 1000 resetState)).totalPausedTime
        = resetState.totalPausedTime + (3000 - 1000) :=
  ⟨C9_pause_resume_guards.1 5 { resetState with isPaused := true } rfl,
   C9_pause_resume_guards.2.2.2.2.1 1000 3000 resetState rfl (by decide)⟩

/-- C5 counterexample: on a session whose workout timer started at
millisecond 1000, stopping at 2000 and again at 3000 yields a different
state from stopping once at 2000, because the second stop re-snapshots
totalWorkoutSeconds from the later clock. -/
theorem C5_stop_twice_differs :
    ¬ stopWorkoutTimer 3000 (stopWorkoutTimer 2000 c5State)
        = stopWorkoutTimer 2000 c5State := by
  decide

/-- C5 amended: stopping an already stopped set or rest timer is a no-op,
and stopping the workout timer twice is a no-op when both stops happen at
the same timestamp or when no start time is recorded; a later second stop
of the workout timer re-snapshots totalWorkoutSeconds instead. -/
theorem C5_stop_idempotent_amended :
    (∀ now1 now2 s, (stopSetTimer now2 (stopSetTimer now1 s).2).2
        = (stopSetTimer now1 s).2) ∧
    (∀ s, stopRestTimer (stopRestTimer s) = stopRestTimer s) ∧
    (∀ now s, stopWorkoutTimer now (stopWorkoutTimer now s)
        = stopWorkoutTimer now s) ∧
    (∀ now1 now2 s, jsTruthyInt s.startTime = false →
        stopWorkoutTimer now2 (stopWorkoutTimer now1 s)
          = stopWorkoutTimer now1 s) := by
  refine ⟨?_, ?_, ?_, ?_⟩
  · intro now1 now2 s; simp [stopSetTimer_snd]
  · intro s; simp [stopRestTimer_eq]
  · intro now s
    by_cases h : jsTruthyInt s.startTime <;> simp [stopWorkoutTimer_eq, h]
  · intro now1 now2 s h; simp [stopWorkoutTimer_eq, h]

/-- C5 amended witness: the double stop of the workout timer on the fresh
state, which has no recorded start time, equals the single stop. -/
theorem C5_stop_idempotent_amended_witness :
    stopWorkoutTimer 3000 (stopWorkoutTimer 2000 resetState)
      = stopWorkoutTimer 2000 resetState :=
  C5_stop_idempotent_amended.2.2.2 2000 3000 resetState rfl

/-- Lookup after an assignment on the PR table. -/
theorem prGet_prSet (t : PRTable) (k : String) (v : Rat) (k' : String) :
    prGet (prSet t k v) k' = if k = k' then v else prGet t k' := by
  induction t with
  | nil => simp [prSet, prGet]
  | cons hd tl ih =>
      obtain ⟨a, b⟩ := hd
      by_cases hak : a = k <;>
        simp only [prSet, hak, if_true, if_false, prGet] <;>
        split_ifs <;> simp_all [prGet]

/-- One updatePRStep never lowers a table entry. -/
theorem updatePRStep_fst_mono (acc : PRTable × List PREvent) (ex : ExerciseRec)
    (key : String) : prGet acc.1 key ≤ prGet (updatePRStep acc ex).1 key := by
  unfold updatePRStep
  cases hm : listMax? ((ex.sets.filter isEffectiveSet).map effWeight) with
  | none => exact le_refl _
  | some m =>
      simp only
      split_ifs with hc
      · rw [prGet_prSet]
        by_cases hk : prKey ex.name = key
        · rw [if_pos hk]; exact le_of_lt (hk ▸ hc.2)
        · rw [if_neg hk]
      · exact le_refl _

/-- The fold of updatePRStep never lowers a table entry. -/
theorem foldl_updatePRStep_mono (exs : List ExerciseRec)
    (acc : PRTable × List PREvent) (key : String) :
    prGet acc.1 key ≤ prGet (exs.foldl updatePRStep acc).1 key := by
  induction exs generalizing acc with
  | nil => exact le_refl _
  | cons ex exs ih =>
      exact le_trans (updatePRStep_fst_mono acc ex key) (ih (updatePRStep acc ex))

/-- One updatePRStep appends at most one event. -/
theorem updatePRStep_snd_len (acc : PRTable × List PREvent) (ex : ExerciseRec) :
    (updatePRStep acc ex).2.length ≤ acc.2.length + 1 := by
  unfold updatePRStep
  cases hm : listMax? ((ex.sets.filter isEffectiveSet).map effWeight) with
  | none => simp
  | some m => simp only; split_ifs <;> simp

/-- The fold of updatePRStep appends at most one event per exercise. -/
theorem foldl_updatePRStep_len (exs : List ExerciseRec)
    (acc : PRTable × List PREvent) :
    (exs.foldl updatePRStep acc).2.length ≤ acc.2.length + exs.length := by
  induction exs generalizing acc with
  | nil => simp
  | cons ex exs ih =>
      have h1 := ih (updatePRStep acc ex)
      have h2 := updatePRStep_snd_len acc ex
      simp only [List.foldl_cons, List.length_cons]
      omega

/-- C2: the PR table entry of every key is monotonically non-decreasing
under updatePRsV2; at most one PR event is emitted per exercise per call;
a single-exercise call changes the table only at the normalized key and
only when the maximum effective set weight is positive and strictly
exceeds the stored value, the new entry being that maximum; and the
weight sequence 80, 75, 90, 85 fed across four calls emits PR events
exactly at 80 and 90. -/
theorem C2_pr_table_invariants :
    (∀ exs prs key, prGet prs key ≤ prGet (updatePRsV2 exs prs).1 key) ∧
    (∀ exs prs, (updatePRsV2 exs prs).2.length ≤ exs.length) ∧
    (∀ ex prs key, prGet (updatePRsV2 [ex] prs).1 key ≠ prGet prs key →
      key = prKey ex.name ∧ ∃ m, maxEff ex = some m ∧ 0 < m ∧
        prGet prs key < m ∧ prGet (updatePRsV2 [ex] prs).1 key = m) ∧
    (c2Run1.2 = [⟨"Bench", 80⟩] ∧ c2Run2.2 = [] ∧
     c2Run3.2 = [⟨"Bench", 90⟩] ∧ c2Run4.2 = []) := by
  refine ⟨?_, ?_, ?_, ?_⟩
  · intro exs prs key
    exact foldl_updatePRStep_mono exs (prs, []) key
  · intro exs prs
    have := foldl_updatePRStep_len exs (prs, [])
    simpa [updatePRsV2] using this
  · intro ex prs key h
    have hrw : updatePRsV2 [ex] prs = updatePRStep (prs, []) ex := rfl
    rw [hrw] at h ⊢
    unfold updatePRStep at h ⊢
    cases hm : listMax? ((ex.sets.filter isEffectiveSet).map effWeight) with
    | none => simp only [hm] at h; exact absurd rfl h
    | some m =>
        simp only [hm] at h ⊢
        split_ifs at h ⊢ with hc
        · simp only [prGet_prSet] at h ⊢
          by_cases hk : prKey ex.name = key
          · refine ⟨hk.symm, m, ?_, hc.1, ?_, ?_⟩
            · simpa [maxEff] using hm
            · exact hk ▸ hc.2
            · rw [if_pos hk]
          · rw [if_neg hk] at h; exact absurd rfl h
        · exact absurd rfl h
  · decide

/-- C2 witness: call one of the sequence, where the entry for the bench
key rises from 0 to 80, exercising the monotonicity conjunct and the
single-call characterization at a concrete changing input. -/
theorem C2_pr_table_invariants_witness :
    (prGet [] "bench" ≤ prGet (updatePRsV2 [c2Ex 80] []).1 "bench") ∧
    ("bench" = prKey (c2Ex 80).name ∧ ∃ m, maxEff (c2Ex 80) = some m ∧ 0 < m ∧
      prGet [] "bench" < m ∧ prGet (updatePRsV2 [c2Ex 80] []).1 "bench" = m) :=
  ⟨C2_pr_table_invariants.1 [c2Ex 80] [] "bench",
   C2_pr_table_invariants.2.2.1 (c2Ex 80) [] "bench" (by decide)⟩

/-- Starting the workout timer does not change the equipment type. -/
theorem startWorkoutTimer_equipmentType (now : Int) (s : SessionState) :
    (startWorkoutTimer now s).equipmentType = s.equipmentType := by
  unfold startWorkoutTimer; split_ifs <;> rfl

/-- Starting the workout timer does not change the bar weight. -/
theorem startWorkoutTimer_barbellWeight (now : Int) (s : SessionState) :
    (startWorkoutTimer now s).barbellWeight = s.barbellWeight := by
  unfold startWorkoutTimer; split_ifs <;> rfl

/-- Closed form of the set returned by finishSet. -/
theorem finishSet_set_eq (now : Int) (weight : Rat) (reps : Int) (ty : String)
    (s : SessionState) :
    (finishSet now weight reps ty s).2 =
      { weight := weight,
        realWeight := some (if s.equipmentType = some EQUIPMENT_BARBELL ∧
                              0 < s.barbellWeight
                            then weight + s.barbellWeight else weight),
        reps := reps,
        duration := (stopSetTimer now s).1,
        setType := some ty,
        equipmentType := s.equipmentType } := by
  unfold finishSet
  simp [startWorkoutTimer_equipmentType, startWorkoutTimer_barbellWeight,
        stopSetTimer_snd]

/-- C4: with barbell equipment and a positive bar weight, finishSet
records real weight equal to nominal plus bar weight, which is at least
the nominal weight; in the end to end scenario with a 20 kg bar, the
recorded real weight of finishSet nominal 80 is 100, the totals of the
session carry totalVolume 500 from that one set of 5 reps, and the
workout persisted by finishWorkout has totalVolume 500. -/
theorem C4_barbell_real_weight :
    (∀ now weight reps ty s,
      s.equipmentType = some EQUIPMENT_BARBELL → 0 < s.barbellWeight →
      (finishSet now weight reps ty s).2.realWeight = some (weight + s.barbellWeight) ∧
      weight ≤ weight + s.barbellWeight) ∧
    (c4Finish.2.realWeight = some 100 ∧ c4Finish.2.weight = 80 ∧ c4Finish.2.reps = 5 ∧
     (getTotals 7000 c4AfterClose).2.totalVolume = 500 ∧
     ((finishWorkout 7000 c4World).1.store.workouts.map fun wk => wk.totalVolume)
        = [500]) := by
  constructor
  · intro now weight reps ty s he hb
    constructor
    · rw [finishSet_set_eq]; simp [he, hb]
    · linarith
  · simp [c4Finish, c4AfterClose, c4AfterStart, c4AfterBegin, c4World, finishSet,
          getTotals, closeExercise, beginExercise, startSetTimer, resetState,
          stopAllTimers, stopSetTimer, stopWorkoutTimer, stopRestTimer,
          startWorkoutTimer, finishWorkout, autoCloseOpenExercise, updatePRsV2,
          updatePRStep, listMax?, effWeight, isEffectiveSet, emptyStore,
          jsTruthyInt, jsOrInt, jsFloorDiv1000, EQUIPMENT_BARBELL, EQUIPMENT_MACHINE,
          SET_TYPES_EFFECTIVE, prGet, prSet, prKey]
    norm_num

/-- C4 witness: the generic conjunct applied to the concrete scenario
state, whose equipment is a barbell of weight 20. -/
theorem C4_barbell_real_weight_witness :
    (finishSet 6000 80 5 SET_TYPES_EFFECTIVE c4AfterStart).2.realWeight
        = some (80 + c4AfterStart.barbellWeight) ∧
    (80 : Rat) ≤ 80 + c4AfterStart.barbellWeight :=
  C4_barbell_real_weight.1 6000 80 5 SET_TYPES_EFFECTIVE c4AfterStart
    (by decide) (by decide)

/-- C6: calcStreak always returns 7 entries; entry i is marked done
exactly when some workout date falls on Monday of the current week plus
i days; the anchor day is always a Monday; and with workouts on Monday
and Thursday of the week of a Wednesday, exactly the Monday and Thursday
positions are marked. -/
theorem C6_weekly_streak :
    (∀ ws today, (calcStreak ws today).length = 7) ∧
    (∀ ws today (i : Nat), i < 7 →
      (((calcStreak ws today).getD i { label := "", done := false }).done = true ↔
        ∃ w ∈ ws, w.date = some (mondayOf today + (i : Int)))) ∧
    (∀ today, jsGetDay (mondayOf today) = 1) ∧
    ((calcStreak [⟨some 4⟩, ⟨some 7⟩] 6).map StreakDay.done
      = [true, false, false, true, false, false, false]) := by
  refine ⟨?_, ?_, ?_, ?_⟩
  · intro ws today; rfl
  · intro ws today i hi
    interval_cases i <;>
      simp [calcStreak, dayLabels, mondayOf, List.any_eq_true, beq_iff_eq]
  · intro today
    simp only [jsGetDay, mondayOf]
    omega
  · decide

/-- C6 witness: the Monday entry of the streak of the concrete Wednesday,
with one workout on that Monday. -/
theorem C6_weekly_streak_witness :
    (((calcStreak [⟨some 4⟩] 6).getD 0 { label := "", done := false }).done = true ↔
      ∃ w ∈ [(⟨some 4⟩ : StreakWorkout)], w.date = some (mondayOf 6 + ((0 : Nat) : Int))) :=
  C6_weekly_streak.2.1 [⟨some 4⟩] 6 0 (by decide)

/-- C8: when after the auto-close step no completed exercise exists,
finishWorkout leaves the store untouched, emits exactly the rejection
toast, and the session is exactly the auto-closed session. -/
theorem C8_finish_workout_rejection (now : Int) (w : World)
    (h : (autoCloseOpenExercise w.session).completedExercises.length = 0) :
    (finishWorkout now w).1.store = w.store ∧
    (finishWorkout now w).2 = ["Completa al menos un ejercicio antes de finalizar"] ∧
    (finishWorkout now w).1.session = autoCloseOpenExercise w.session := by
  unfold finishWorkout
  simp [h]

/-- C8 witness: finishing a fresh session over an empty store is
rejected without any persistence. -/
theorem C8_finish_workout_rejection_witness :
    (finishWorkout 0 ⟨resetState, emptyStore⟩).1.store
        = (⟨resetState, emptyStore⟩ : World).store ∧
    (finishWorkout 0 ⟨resetState, emptyStore⟩).2
        = ["Completa al menos un ejercicio antes de finalizar"] ∧
    (finishWorkout 0 ⟨resetState, emptyStore⟩).1.session
        = autoCloseOpenExercise (⟨resetState, emptyStore⟩ : World).session :=
  C8_finish_workout_rejection 0 ⟨resetState, emptyStore⟩ (by decide)

/-- Normalizing an absent setType does not change effectiveness. -/
theorem isEffectiveSet_normSet (s : SetRec) :
    isEffectiveSet (normSet s) = isEffectiveSet s := by
  unfold normSet isEffectiveSet
  cases h : s.setType <;> simp [h]

/-- Normalizing an absent setType does not change the effective weight. -/
theorem effWeight_normSet (s : SetRec) : effWeight (normSet s) = effWeight s := by
  unfold normSet
  cases h : s.setType <;> simp [h, effWeight]

/-- Normalizing absent set types does not change the effective weights of
the effective sets. -/
theorem filter_map_normSet (sets : List SetRec) :
    ((sets.map normSet).filter isEffectiveSet).map effWeight
      = (sets.filter isEffectiveSet).map effWeight := by
  induction sets with
  | nil => rfl
  | cons s rest ih =>
      simp only [List.map_cons, List.filter_cons, isEffectiveSet_normSet]
      cases hb : isEffectiveSet s <;> simp [hb, ih, effWeight_normSet]

/-- Normalizing absent set types does not change one PR update step. -/
theorem updatePRStep_normEx (acc : PRTable × List PREvent) (ex : ExerciseRec) :
    updatePRStep acc (normEx ex) = updatePRStep acc ex := by
  unfold updatePRStep normEx
  simp only [filter_map_normSet]

/-- Normalizing absent set types does not change calcEffectiveVolume. -/
theorem calcEffectiveVolume_norm (sets : List SetRec) :
    calcEffectiveVolume (sets.map normSet) = calcEffectiveVolume sets := by
  unfold calcEffectiveVolume
  rw [List.foldl_map]
  congr 1
  funext acc s
  cases h : s.setType with
  | none => simp [normSet, h, effWeight, SET_TYPES_EFFECTIVE]
  | some t => simp [normSet, h]

/-- C10: a set without a setType is treated as effective throughout the
metrics engine: replacing every absent setType by the effective label
changes neither calcEffectiveVolume nor updatePRsV2, and detectPRV2 with
an omitted setType argument equals detectPRV2 with the effective label. -/
theorem C10_missing_settype_is_effective :
    (∀ sets, calcEffectiveVolume (sets.map normSet) = calcEffectiveVolume sets) ∧
    (∀ exs prs, updatePRsV2 (exs.map normEx) prs = updatePRsV2 exs prs) ∧
    (∀ name weight prs, detectPRV2 name weight prs none
        = detectPRV2 name weight prs (some SET_TYPES_EFFECTIVE)) := by
  refine ⟨calcEffectiveVolume_norm, ?_, ?_⟩
  · intro exs prs
    unfold updatePRsV2
    rw [List.foldl_map]
    congr 1
    funext acc ex
    exact updatePRStep_normEx acc ex
  · intro name weight prs; rfl

/-- Starting the set timer in plan mode is a no-op on the state. -/
theorem startSetTimer_plan (now : Int) (s : SessionState) (h : s.mode = "plan") :
    startSetTimer now s = s := by
  unfold startSetTimer; rw [if_pos h]

/-- Starting the workout timer in plan mode is a no-op on the state. -/
theorem startWorkoutTimer_plan (now : Int) (s : SessionState) (h : s.mode = "plan") :
    startWorkoutTimer now s = s := by
  unfold startWorkoutTimer; rw [if_pos h]

/-- Stopping the set timer preserves the all zero durations property. -/
theorem allDurationsZero_stopSetTimer (now : Int) (s : SessionState)
    (h : allDurationsZero s) : allDurationsZero (stopSetTimer now s).2 := by
  rw [stopSetTimer_snd]; exact h

/-- Stopping the rest timer preserves the all zero durations property. -/
theorem allDurationsZero_stopRestTimer (s : SessionState)
    (h : allDurationsZero s) : allDurationsZero (stopRestTimer s) := by
  rw [stopRestTimer_eq]; exact h

/-- Closing an exercise preserves the all zero durations property. -/
theorem allDurationsZero_closeExercise (s : SessionState) (h : allDurationsZero s) :
    allDurationsZero (closeExercise s).1 := by
  obtain ⟨h1, h2⟩ := h
  unfold closeExercise
  cases hce : s.currentExercise with
  | none => exact ⟨h1, h2⟩
  | some cur =>
      refine ⟨?_, ?_⟩
      · intro st hst; simp at hst
      · intro ex hex st hst
        rcases List.mem_append.mp hex with hex | hex
        · exact h2 ex hex st hst
        · rw [List.mem_singleton] at hex
          subst hex
          exact h1 st hst

/-- Appending a zero duration set preserves the all zero durations
property. -/
theorem allDurationsZero_append (s : SessionState) (set : SetRec)
    (hz : allDurationsZero s) (hd : set.duration = 0) (nw : Rat) :
    allDurationsZero
      { s with completedSets := s.completedSets ++ [set], nextWeight := nw } := by
  obtain ⟨h1, h2⟩ := hz
  refine ⟨?_, h2⟩
  intro st hst
  rcases List.mem_append.mp hst with hst | hst
  · exact h1 st hst
  · rw [List.mem_singleton] at hst; subst hst; exact hd

/-- Starting the set timer preserves the all zero durations property in
every mode, since it only touches the set clock fields. -/
theorem allDurationsZero_startSetTimer (now : Int) (s : SessionState)
    (h : allDurationsZero s) : allDurationsZero (startSetTimer now s) := by
  unfold startSetTimer
  split_ifs
  · exact h
  · exact h

/-- Finishing the current exercise preserves the all zero durations
property of the session. -/
theorem allDurationsZero_handleFinishExercise (now : Int) (w : World)
    (h : allDurationsZero w.session) :
    allDurationsZero (handleFinishExercise now w).1.session := by
  unfold handleFinishExercise
  by_cases hc : w.session.completedSets.length = 0
  · rw [if_pos hc]; exact h
  · rw [if_neg hc]
    have h3 : allDurationsZero
        (closeExercise (stopRestTimer (stopSetTimer now w.session).2)).1 :=
      allDurationsZero_closeExercise _
        (allDurationsZero_stopRestTimer _ (allDurationsZero_stopSetTimer now _ h))
    by_cases hp :
        (closeExercise (stopRestTimer (stopSetTimer now w.session).2)).1.mode = "plan"
    · simpa [hp, updatePlanTemplate] using h3
    · simpa [hp] using h3

/-- C7: in plan mode neither the workout timer nor the set timer starts,
and handleFinishSetV2 preserves the property that every recorded set
duration in the session is zero, so every set recorded in plan mode has
duration zero. -/
theorem C7_plan_mode_zero_durations :
    (∀ now s, s.mode = "plan" → startWorkoutTimer now s = s) ∧
    (∀ now s, s.mode = "plan" → startSetTimer now s = s) ∧
    (∀ now weight reps ty c w, w.session.mode = "plan" → allDurationsZero w.session →
      allDurationsZero (handleFinishSetV2 now weight reps ty c w).1.session) := by
  refine ⟨startWorkoutTimer_plan, startSetTimer_plan, ?_⟩
  intro now weight reps ty c w hm hz
  unfold handleFinishSetV2
  by_cases h0 : weight = 0 ∧ reps = 0
  · rw [if_pos h0]; exact hz
  · rw [if_neg h0, if_pos hm]
    cases c with
    | true =>
        simp only [if_true]
        exact allDurationsZero_startSetTimer _ _ (allDurationsZero_append _ _ hz rfl _)
    | false =>
        simp only [Bool.false_eq_true, if_false]
        exact allDurationsZero_handleFinishExercise now _
          (allDurationsZero_append _ _ hz rfl _)

/-- C7 witness: a non rejected finishSet event in a fresh plan mode
session keeps all durations zero, and both timer starts are no-ops
there. -/
theorem C7_plan_mode_zero_durations_witness :
    startWorkoutTimer 5 c7World.session = c7World.session ∧
    startSetTimer 5 c7World.session = c7World.session ∧
    allDurationsZero
      (handleFinishSetV2 5 60 8 SET_TYPES_EFFECTIVE true c7World).1.session :=
  ⟨C7_plan_mode_zero_durations.1 5 c7World.session rfl,
   C7_plan_mode_zero_durations.2.1 5 c7World.session rfl,
   C7_plan_mode_zero_durations.2.2 5 60 8 SET_TYPES_EFFECTIVE true c7World rfl
     ⟨by simp [c7World, resetState], by simp [c7World, resetState]⟩⟩

end IronLog
